import Mathlib

/-
Verification of the LatencyMon monitoring engine (monitor_manager.py) against
its specification.  The Python classes are shallowly embedded: each method
becomes a pure Lean function over an explicit state, Python ints become ℤ,
Python floats become ℚ, fallible reads become Option, and a probe that may
raise becomes an Except value.  Dictionaries used as settings become
functions String → Option ℚ; the monitor registry becomes a function
ℤ → Option MonitorInstance.
-/

namespace LatencyMon

/-- One SNMP counter sample, as returned by
SNMPManager.get_interface_counters for one interface:
in_octets, out_octets and the capture timestamp. -/
structure Sample where
  in_octets : ℤ
  out_octets : ℤ
  timestamp : ℚ
deriving DecidableEq, Repr

/-- The result dictionary built by BandwidthMonitor.perform_poll.  The two
threshold keys are present in the Python dict only when set; they are
modelled as Option fields, none meaning absent. -/
structure BandwidthData where
  monitor_id : ℤ
  monitor_name : String
  timestamp : String
  in_bps : ℚ
  out_bps : ℚ
  threshold_exceeded : Option Bool
  threshold : Option ℚ
deriving DecidableEq, Repr

/-- BandwidthMonitor.perform_poll (source lines 198-256).  Inputs: the
configured threshold_mbps (read in the source from settings with default 0),
the monitor id and name, the wall-clock timestamp string, the stored
prev_octets state, and the counter read outcome (none models an SNMP failure
or the interface index missing from the result).  Returns the emitted result
(none = no result this tick) and the new prev_octets state. -/
def bandwidthPerformPoll (threshold_mbps : ℚ) (mid : ℤ) (mname ts : String)
    (prev_octets : Option Sample) (read : Option Sample) :
    Option BandwidthData × Option Sample :=
  match read with
  | none => (none, prev_octets)
  | some current =>
    let base : BandwidthData :=
      { monitor_id := mid, monitor_name := mname, timestamp := ts,
        in_bps := 0, out_bps := 0, threshold_exceeded := none, threshold := none }
    let data :=
      match prev_octets with
      | none => base
      | some prev =>
        let time_delta := current.timestamp - prev.timestamp
        if time_delta > 0 then
          let diff_in := current.in_octets - prev.in_octets
          let diff_in := if diff_in < 0 then diff_in + 2 ^ 64 else diff_in
          let diff_out := current.out_octets - prev.out_octets
          let diff_out := if diff_out < 0 then diff_out + 2 ^ 64 else diff_out
          let in_bps : ℚ := ((diff_in * 8 : ℤ) : ℚ) / time_delta
          let out_bps : ℚ := ((diff_out * 8 : ℤ) : ℚ) / time_delta
          let d := { base with in_bps := in_bps, out_bps := out_bps }
          if threshold_mbps > 0 then
            if in_bps / 1000000 > threshold_mbps ∨ out_bps / 1000000 > threshold_mbps then
              { d with threshold_exceeded := some true, threshold := some threshold_mbps }
            else d
          else d
        else base
    (some data, some current)

/-- C1: a bandwidth poll that succeeds with a prior sample and elapsed time
greater than zero emits rates equal to the corrected byte delta times 8
divided by the elapsed time, where the corrected delta adds 2 to the 64th
power whenever the raw counter difference is negative. -/
theorem bandwidth_rate_formula (threshold_mbps : ℚ) (mid : ℤ) (mname ts : String)
    (p c : Sample) (h : c.timestamp - p.timestamp > 0) :
    ((bandwidthPerformPoll threshold_mbps mid mname ts (some p) (some c)).1.map
        (fun d => d.in_bps)) =
      some ((((if c.in_octets - p.in_octets < 0
          then c.in_octets - p.in_octets + 2 ^ 64
          else c.in_octets - p.in_octets) * 8 : ℤ) : ℚ) / (c.timestamp - p.timestamp)) ∧
    ((bandwidthPerformPoll threshold_mbps mid mname ts (some p) (some c)).1.map
        (fun d => d.out_bps)) =
      some ((((if c.out_octets - p.out_octets < 0
          then c.out_octets - p.out_octets + 2 ^ 64
          else c.out_octets - p.out_octets) * 8 : ℤ) : ℚ) / (c.timestamp - p.timestamp)) := by
  simp only [bandwidthPerformPoll, if_pos h]
  split_ifs <;> simp

/-- C1 witness: the spec's two worked examples.  A delta of 2,000,000 bytes
over 5 seconds gives 3,200,000 bits per second, and a previous in counter of
2 to the 64th power minus 100 followed by a new reading of 50 gives a
corrected delta of 150 bytes, hence 150 times 8 over 5 bits per second. -/
theorem bandwidth_rate_formula_witness :
    ((5 : ℚ) - 0 > 0) ∧
    ((bandwidthPerformPoll 0 1 "m" "t" (some ⟨100, 0, 0⟩) (some ⟨2000100, 0, 5⟩)).1.map
        (fun d => d.in_bps)) = some 3200000 ∧
    ((bandwidthPerformPoll 0 1 "m" "t" (some ⟨2 ^ 64 - 100, 0, 0⟩) (some ⟨50, 0, 5⟩)).1.map
        (fun d => d.in_bps)) = some (150 * 8 / 5) := by
  refine ⟨by norm_num, ?_, ?_⟩
  · exact ((bandwidth_rate_formula 0 1 "m" "t" ⟨100, 0, 0⟩ ⟨2000100, 0, 5⟩
      (by norm_num)).1).trans (by norm_num)
  · exact ((bandwidth_rate_formula 0 1 "m" "t" ⟨2 ^ 64 - 100, 0, 0⟩ ⟨50, 0, 5⟩
      (by norm_num)).1).trans (by norm_num)

/-- C2 counterexample: with no previous sample stored, a successful counter
read does NOT produce "no rate result": perform_poll returns a result
dictionary (with zero rates), which the tick loop forwards to the sink
because it is non-null.  The claim that the bootstrap tick yields nothing to
forward is therefore false at this input. -/
theorem bandwidth_bootstrap_counterexample :
    bandwidthPerformPoll 0 1 "m" "t" none (some ⟨10, 20, 3⟩) =
      (some ⟨1, "m", "t", 0, 0, none, none⟩, some ⟨10, 20, 3⟩) ∧
    (bandwidthPerformPoll 0 1 "m" "t" none (some ⟨10, 20, 3⟩)).1 ≠ none := by
  constructor
  · rfl
  · decide

/-- C2 amended: with no previous sample stored, a successful counter read
stores the read sample as prev_octets and emits a result with in_bps = 0,
out_bps = 0 and no threshold fields (which is forwarded to the sink), rather
than no result. -/
theorem bandwidth_bootstrap_zero_result (threshold_mbps : ℚ) (mid : ℤ)
    (mname ts : String) (c : Sample) :
    bandwidthPerformPoll threshold_mbps mid mname ts none (some c) =
      (some ⟨mid, mname, ts, 0, 0, none, none⟩, some c) := rfl

/-- C6: a bandwidth poll that succeeds with a prior sample whose elapsed
time is not positive skips the rate computation entirely: the emitted result
keeps the default zero rates and no threshold fields, and prev_octets is
replaced by the new sample. -/
theorem bandwidth_nonpositive_delta_skips (threshold_mbps : ℚ) (mid : ℤ)
    (mname ts : String) (p c : Sample) (h : c.timestamp - p.timestamp ≤ 0) :
    bandwidthPerformPoll threshold_mbps mid mname ts (some p) (some c) =
      (some ⟨mid, mname, ts, 0, 0, none, none⟩, some c) := by
  simp only [bandwidthPerformPoll, if_neg (not_lt.mpr h)]

/-- C6 witness: equal capture timestamps (elapsed time zero) yield the
default zero-rate result. -/
theorem bandwidth_nonpositive_delta_skips_witness :
    ((5 : ℚ) - 5 ≤ 0) ∧
    bandwidthPerformPoll 1 1 "m" "t" (some ⟨0, 0, 5⟩) (some ⟨10, 10, 5⟩) =
      (some ⟨1, "m", "t", 0, 0, none, none⟩, some ⟨10, 10, 5⟩) :=
  ⟨by norm_num,
    bandwidth_nonpositive_delta_skips 1 1 "m" "t" ⟨0, 0, 5⟩ ⟨10, 10, 5⟩ (by norm_num)⟩

/-- C7: after every successful counter read, whatever the previous state and
whether or not a rate or threshold was computed, prev_octets equals exactly
the raw sample just read. -/
theorem bandwidth_prev_sample_overwrite (threshold_mbps : ℚ) (mid : ℤ)
    (mname ts : String) (prev : Option Sample) (c : Sample) :
    (bandwidthPerformPoll threshold_mbps mid mname ts prev (some c)).2 = some c := rfl

/-- Round to 2 decimal places, as Python round(latency, 2).  (Half-way
cases round up here; the Python runtime applies banker's rounding to the
nearest representable float, which agrees away from ties, and no claim here
depends on a tie.) -/
def round2 (q : ℚ) : ℚ := ((⌊q * 100 + 1 / 2⌋ : ℤ) : ℚ) / 100

/-- The result dictionary built by PingMonitor.perform_poll.  The value key
holds the latency (none models Python None), and the two threshold keys are
absent (none) on the packet-loss path. -/
structure PingData where
  monitor_id : ℤ
  monitor_name : String
  timestamp : String
  value : Option ℚ
  packet_loss : Bool
  threshold_exceeded : Option Bool
  threshold : Option ℚ
deriving DecidableEq, Repr

/-- Outcome of one ping(target, timeout=1) probe call: a latency reply, an
explicit None reply, or a raised exception. -/
inductive PingOutcome where
  | reply (latency : ℚ)
  | noReply
  | exn (msg : String)
deriving DecidableEq, Repr

/-- PingMonitor.perform_poll (source lines 150-180): no reply emits a
packet-loss result with null value and no threshold fields; a reply is
rounded to 2 decimals and compared (rounded) against the threshold; an
exception is caught inside the method and yields no result. -/
def pingPerformPoll (mid : ℤ) (mname ts : String) (threshold : ℚ)
    (outcome : PingOutcome) : Option PingData :=
  match outcome with
  | .noReply =>
      some { monitor_id := mid, monitor_name := mname, timestamp := ts,
             value := none, packet_loss := true,
             threshold_exceeded := none, threshold := none }
  | .reply l =>
      let latency := round2 l
      let exceeded := decide (latency > threshold)
      some { monitor_id := mid, monitor_name := mname, timestamp := ts,
             value := some latency, packet_loss := false,
             threshold_exceeded := some exceeded, threshold := some threshold }
  | .exn _ => none

/-- C4 counterexample: with threshold 5 and probe latency 5.004, the source
compares the ROUNDED latency (5.00) against the threshold and emits
threshold_exceeded = false, while the raw latency 5.004 is strictly greater
than the threshold — so the claim that thresholdExceeded equals
(L > thresholdMs) for the probe latency L is false at this input. -/
theorem ping_threshold_counterexample :
    (pingPerformPoll 1 "m" "t" 5 (.reply (5004 / 1000))).map
        (fun d => d.threshold_exceeded) = some (some false) ∧
    ((5004 : ℚ) / 1000 > 5) := by
  have harg : ((5004 : ℚ) / 1000 * 100 + 1 / 2) = 5009 / 10 := by norm_num
  have hfl : ⌊(5009 / 10 : ℚ)⌋ = 500 := by
    rw [Int.floor_eq_iff]; norm_num
  have h : round2 ((5004 : ℚ) / 1000) = 5 := by
    rw [round2, harg, hfl]; norm_num
  constructor
  · simp [pingPerformPoll, h]
  · norm_num

/-- C4 amended: a no-reply probe emits null latency, packet loss true and no
threshold fields; a reply L emits the latency rounded to 2 decimals, packet
loss false, thresholdExceeded equal to (round2 L > thresholdMs) — the
comparison uses the rounded latency — and both threshold fields present
regardless of whether the threshold was exceeded. -/
theorem ping_result_shape (mid : ℤ) (mname ts : String) (threshold : ℚ) (l : ℚ) :
    pingPerformPoll mid mname ts threshold .noReply =
      some ⟨mid, mname, ts, none, true, none, none⟩ ∧
    pingPerformPoll mid mname ts threshold (.reply l) =
      some ⟨mid, mname, ts, some (round2 l), false,
            some (decide (round2 l > threshold)), some threshold⟩ :=
  ⟨rfl, rfl⟩

/-- BaseMonitor.should_poll (source lines 131-132). -/
def should_poll (interval now last_poll_time : ℚ) : Bool :=
  now - last_poll_time ≥ interval

/-- BaseMonitor.poll (source lines 134-138), with the probe body abstracted:
if the monitor is not due, return None and leave last_poll_time unchanged;
otherwise set last_poll_time to now and run perform_poll, whose exception
(if any) propagates to the caller after the timestamp update.  The two
time.time() calls of the source are modelled as the single instant now.
Returns the poll outcome and the new last_poll_time. -/
def poll {α : Type} (interval now last_poll_time : ℚ)
    (perform : Except String (Option α)) : Except String (Option α) × ℚ :=
  if should_poll interval now last_poll_time then (perform, now)
  else (Except.ok none, last_poll_time)

/-- C3: poll is a two-stage gate: when now minus last_poll_time is below the
interval it returns nothing (no error, no result) for every probe outcome
and leaves last_poll_time unchanged; when the interval has elapsed it sets
last_poll_time to now and returns the probe outcome unchanged, so the
timestamp is updated even when the probe fails. -/
theorem poll_two_stage_gate {α : Type} (interval now last_poll_time : ℚ)
    (perform : Except String (Option α)) :
    (now - last_poll_time < interval →
      poll interval now last_poll_time perform = (Except.ok none, last_poll_time)) ∧
    (now - last_poll_time ≥ interval →
      poll interval now last_poll_time perform = (perform, now)) := by
  constructor
  · intro h
    simp [poll, should_poll, not_le.mpr h]
  · intro h
    simp [poll, should_poll, h]

/-- C3 witness: with interval 2 and last poll at 9, a poll at time 10 is not
due and returns nothing even though the probe would raise; a poll at time 11
is due, returns the raised error, and still advances last_poll_time to 11. -/
theorem poll_two_stage_gate_witness :
    poll 2 10 9 (Except.error "boom" : Except String (Option ℕ)) = (Except.ok none, 9) ∧
    poll 2 11 9 (Except.error "boom" : Except String (Option ℕ)) = (Except.error "boom", 11) :=
  ⟨(poll_two_stage_gate 2 10 9 (Except.error "boom")).1 (by norm_num),
   (poll_two_stage_gate 2 11 9 (Except.error "boom")).2 (by norm_num)⟩

/-- settings.get(key, default) on a monitor's settings dictionary, modelled
as a partial map from keys to numeric values. -/
def settingsGet (settings : String → Option ℚ) (k : String) (d : ℚ) : ℚ :=
  (settings k).getD d

/-- Dictionary update settings[k] = v. -/
def settingsInsert (settings : String → Option ℚ) (k : String) (v : ℚ) :
    String → Option ℚ :=
  fun k2 => if k2 = k then some v else settings k2

/-- BaseMonitor.init (source lines 124-129): the interval is
float(settings.get('interval', 1.0)). -/
def base_interval (settings : String → Option ℚ) : ℚ :=
  settingsGet settings "interval" 1

/-- PingMonitor.init passes its settings to the base unchanged, so its
interval is the base interval. -/
def ping_interval (settings : String → Option ℚ) : ℚ :=
  base_interval settings

/-- PingMonitor.init (source line 148): threshold defaults to 5.0. -/
def ping_threshold (settings : String → Option ℚ) : ℚ :=
  settingsGet settings "threshold" 5

/-- BandwidthMonitor.init settings mutation (source lines 186-187): when the
interval key is absent, insert 5.0 before base initialization. -/
def bandwidth_init_settings (settings : String → Option ℚ) : String → Option ℚ :=
  if (settings "interval").isSome then settings
  else settingsInsert settings "interval" 5

/-- Interval of a constructed BandwidthMonitor: the base interval read from
the (possibly mutated) settings. -/
def bandwidth_interval (settings : String → Option ℚ) : ℚ :=
  base_interval (bandwidth_init_settings settings)

/-- C10: a bandwidth monitor constructed from settings with no interval key
gets interval 5, because the constructor inserts the default 5.0 into the
settings before base initialization, whereas a ping monitor constructed from
such settings gets the base default interval 1. -/
theorem default_interval_bandwidth_vs_ping (settings : String → Option ℚ)
    (h : settings "interval" = none) :
    bandwidth_interval settings = 5 ∧ ping_interval settings = 1 := by
  constructor
  · simp [bandwidth_interval, bandwidth_init_settings, base_interval,
      settingsGet, settingsInsert, h]
  · simp [ping_interval, base_interval, settingsGet, h]

/-- C10 witness: the empty settings dictionary. -/
theorem default_interval_bandwidth_vs_ping_witness :
    bandwidth_interval (fun _ => none) = 5 ∧ ping_interval (fun _ => none) = 1 :=
  default_interval_bandwidth_vs_ping (fun _ => none) rfl

/-- One monitor configuration row, keys id, type, name, target, settings. -/
structure MonitorConf where
  id : ℤ
  mtype : String
  mname : String
  target : String
  settings : String → Option ℚ

/-- One interface row returned by db.get_interface. -/
structure NetInterface where
  device_id : ℤ
  if_index : ℤ

/-- One device row returned by db.get_device. -/
structure Device where
  ip_address : String
  community_string : String

/-- The database lookups used by monitor construction and reload.
get_device is modelled total because the source indexes the returned record
unconditionally. -/
structure DB where
  get_monitor : ℤ → Option MonitorConf
  get_interface : String → Option NetInterface
  get_device : ℤ → Device

/-- A live monitor instance held in the registry. -/
inductive MonitorInstance where
  | ping (id : ℤ) (mname target_ip : String) (interval threshold : ℚ)
  | bandwidth (id : ℤ) (mname : String) (if_index : ℤ)
      (device_ip community : String) (interval : ℚ)
deriving DecidableEq

/-- The registry self.monitors, a map from monitor id to instance. -/
def regInsert (monitors : ℤ → Option MonitorInstance) (k : ℤ)
    (v : MonitorInstance) : ℤ → Option MonitorInstance :=
  fun i => if i = k then some v else monitors i

/-- Deletion from the registry. -/
def regErase (monitors : ℤ → Option MonitorInstance) (k : ℤ) :
    ℤ → Option MonitorInstance :=
  fun i => if i = k then none else monitors i

/-- MonitorManager._create_monitor_instance (source lines 64-93): a ping
config always constructs; a bandwidth config resolves its interface first
and, when the interface lookup fails, returns leaving the registry
untouched; an unknown type also returns.  The int() parse of the target
reference is elided: the interface lookup is keyed by the raw reference. -/
def create_monitor_instance (db : DB) (monitors : ℤ → Option MonitorInstance)
    (conf : MonitorConf) : ℤ → Option MonitorInstance :=
  if conf.mtype = "ping" then
    regInsert monitors conf.id
      (.ping conf.id conf.mname conf.target (ping_interval conf.settings)
        (ping_threshold conf.settings))
  else if conf.mtype = "bandwidth" then
    match db.get_interface conf.target with
    | some iface =>
        let device := db.get_device iface.device_id
        regInsert monitors conf.id
          (.bandwidth conf.id conf.mname iface.if_index device.ip_address
            device.community_string (bandwidth_interval conf.settings))
    | none => monitors
  else monitors

/-- MonitorManager.reload_monitor (source lines 108-115): fetch the config
row; when present, run construction; when absent, delete any registry entry
for the id (deleting an absent key is the identity, so the source's
conditional delete is the unconditional erase). -/
def reload_monitor (db : DB) (monitors : ℤ → Option MonitorInstance)
    (monitor_id : ℤ) : ℤ → Option MonitorInstance :=
  match db.get_monitor monitor_id with
  | some conf => create_monitor_instance db monitors conf
  | none => regErase monitors monitor_id

/-- A bandwidth config whose interface reference does not resolve. -/
def exConf : MonitorConf :=
  { id := 7, mtype := "bandwidth", mname := "bw", target := "3",
    settings := fun _ => none }

/-- A database holding exConf under id 7 and resolving no interfaces. -/
def exDB : DB :=
  { get_monitor := fun i => if i = 7 then some exConf else none,
    get_interface := fun _ => none,
    get_device := fun _ => { ip_address := "", community_string := "" } }

/-- A pre-existing registry entry under id 7. -/
def exOld : MonitorInstance := .ping 7 "old" "10.0.0.1" 1 5

/-- A registry whose only entry is exOld under id 7. -/
def exReg : ℤ → Option MonitorInstance := fun i => if i = 7 then some exOld else none

/-- C5 counterexample: reloading id 7, whose bandwidth construction fails
because the interface reference does not resolve, leaves the pre-existing
entry for id 7 in the registry — the claim that the registry afterwards has
no entry for that id (existing entry removed) is false at this input. -/
theorem reload_unresolved_counterexample :
    exDB.get_monitor 7 = some exConf ∧
    exConf.mtype = "bandwidth" ∧
    exDB.get_interface exConf.target = none ∧
    reload_monitor exDB exReg 7 7 = some exOld :=
  ⟨rfl, rfl, rfl, rfl⟩

/-- C5 amended: when the config row exists but its bandwidth construction
fails because the interface reference cannot be resolved, reload does not
throw and is the identity on the registry — any existing entry for that id
remains; an entry is removed only when the config row itself is absent. -/
theorem reload_unresolved_noop (db : DB) (monitors : ℤ → Option MonitorInstance)
    (monitor_id : ℤ) (conf : MonitorConf)
    (hconf : db.get_monitor monitor_id = some conf)
    (htype : conf.mtype = "bandwidth")
    (hiface : db.get_interface conf.target = none) :
    reload_monitor db monitors monitor_id = monitors := by
  simp only [reload_monitor, hconf]
  simp only [create_monitor_instance, htype, hiface]
  simp

/-- C5 witness: the counterexample database and registry, where reload of
id 7 is the identity. -/
theorem reload_unresolved_noop_witness :
    reload_monitor exDB exReg 7 = exReg :=
  reload_unresolved_noop exDB exReg 7 exConf rfl rfl rfl

/-- The per-monitor try/except body of MonitorManager._monitor_loop (source
lines 43-49): a raised exception is caught (and logged), contributing no
result, while a normal return contributes its optional result. -/
def poll_guarded {R : Type} (p : Except String (Option R)) : Option R :=
  match p with
  | .ok r => r
  | .error _ => none

/-- One tick of MonitorManager._monitor_loop over a snapshot of monitors
(source lines 40-49): each monitor's poll outcome is processed in order and
every non-null result is forwarded to the data callback; the list collects
the forwarded results in order. -/
def monitor_tick {R : Type} (polls : List (Except String (Option R))) : List R :=
  polls.foldl (fun acc p =>
    match poll_guarded p with
    | some r => acc ++ [r]
    | none => acc) []

theorem monitor_tick_go {R : Type} (polls : List (Except String (Option R)))
    (acc : List R) :
    polls.foldl (fun acc p =>
      match poll_guarded p with
      | some r => acc ++ [r]
      | none => acc) acc = acc ++ polls.filterMap poll_guarded := by
  induction polls generalizing acc with
  | nil => simp
  | cons p ps ih =>
    cases h : poll_guarded p <;>
      simp [List.foldl_cons, List.filterMap_cons, h, ih]

theorem monitor_tick_eq {R : Type} (polls : List (Except String (Option R))) :
    monitor_tick polls = polls.filterMap poll_guarded := by
  simpa using monitor_tick_go polls []

/-- C8: a tick over a snapshot containing a monitor whose poll raises
processes the remaining monitors exactly as if the failing monitor were
absent — the exception never aborts the tick — and every non-null result of
a non-failing monitor in the snapshot is still forwarded to the sink. -/
theorem monitor_tick_isolation {R : Type}
    (pre post : List (Except String (Option R))) (e : String) :
    monitor_tick (pre ++ Except.error e :: post) =
      monitor_tick pre ++ monitor_tick post ∧
    (∀ r : R, Except.ok (some r) ∈ pre ++ Except.error e :: post →
      r ∈ monitor_tick (pre ++ Except.error e :: post)) := by
  constructor
  · simp [monitor_tick_eq, List.filterMap_append, List.filterMap_cons, poll_guarded]
  · intro r hr
    rw [monitor_tick_eq]
    exact List.mem_filterMap.mpr ⟨Except.ok (some r), hr, rfl⟩

/-- C8 witness: a tick over two succeeding monitors around a raising one
forwards exactly the two non-null results, in order. -/
theorem monitor_tick_isolation_witness :
    monitor_tick (([Except.ok (some 1), Except.ok none] :
        List (Except String (Option ℕ))) ++ Except.error "boom" ::
        [Except.ok (some 2)]) =
      monitor_tick ([Except.ok (some 1), Except.ok none] :
        List (Except String (Option ℕ))) ++ monitor_tick [Except.ok (some 2)] ∧
    (2 : ℕ) ∈ monitor_tick (([Except.ok (some 1), Except.ok none] :
        List (Except String (Option ℕ))) ++ Except.error "boom" ::
        [Except.ok (some 2)]) :=
  ⟨(monitor_tick_isolation [Except.ok (some 1), Except.ok none]
      [Except.ok (some 2)] "boom").1,
   (monitor_tick_isolation [Except.ok (some 1), Except.ok none]
      [Except.ok (some 2)] "boom").2 2 (by simp)⟩

theorem zero_rate_no_threshold (threshold_mbps : ℚ) :
    ¬(threshold_mbps > 0 ∧ ((0 : ℚ) / 1000000 > threshold_mbps ∨
      (0 : ℚ) / 1000000 > threshold_mbps)) := by
  rintro ⟨h1, h2 | h2⟩ <;> rw [zero_div] at h2 <;> linarith

/-- C9: in every emitted bandwidth result the threshold fields are present
(and then threshold_exceeded is true and threshold echoes the configured
value) exactly when the configured threshold_mbps is positive and one
direction's emitted rate in Mbps strictly exceeds it; in particular a
bandwidth result never carries threshold_exceeded = false. -/
theorem bandwidth_threshold_fields (threshold_mbps : ℚ) (mid : ℤ)
    (mname ts : String) (prev read : Option Sample) (data : BandwidthData)
    (h : (bandwidthPerformPoll threshold_mbps mid mname ts prev read).1 = some data) :
    ((data.threshold_exceeded = some true ∧ data.threshold = some threshold_mbps) ∨
      (data.threshold_exceeded = none ∧ data.threshold = none)) ∧
    (data.threshold_exceeded.isSome ↔
      (threshold_mbps > 0 ∧ (data.in_bps / 1000000 > threshold_mbps ∨
        data.out_bps / 1000000 > threshold_mbps))) ∧
    data.threshold_exceeded ≠ some false := by
  cases read with
  | none => simp [bandwidthPerformPoll] at h
  | some c =>
    cases prev with
    | none =>
      simp only [bandwidthPerformPoll, Option.some.injEq] at h
      subst h
      refine ⟨Or.inr ⟨rfl, rfl⟩, ?_, by simp⟩
      simpa using zero_rate_no_threshold threshold_mbps
    | some p =>
      simp only [bandwidthPerformPoll, Option.some.injEq] at h
      split_ifs at h <;> subst h <;>
        refine ⟨by simp, ?_, by simp⟩ <;>
        simp only [Option.isSome_some, Option.isSome_none, eq_self_iff_true,
          true_iff, Bool.false_eq_true, false_iff] <;>
        first
        | tauto
        | (rintro ⟨a, b | b⟩ <;> rw [zero_div] at b <;> linarith)

/-- The result emitted in the C9 witness run. -/
def exData9 : BandwidthData := ⟨1, "m", "t", 3200000, 0, some true, some 1⟩

/-- C9 witness: with threshold 1 Mbps and a computed rate of 3.2 Mbps the
emitted result carries threshold_exceeded = true and echoes the threshold. -/
theorem bandwidth_threshold_fields_witness :
    (bandwidthPerformPoll 1 1 "m" "t" (some ⟨0, 0, 0⟩)
        (some ⟨2000000, 0, 5⟩)).1 = some exData9 ∧
    ((exData9.threshold_exceeded = some true ∧ exData9.threshold = some 1) ∨
      (exData9.threshold_exceeded = none ∧ exData9.threshold = none)) ∧
    (exData9.threshold_exceeded.isSome ↔
      ((1 : ℚ) > 0 ∧ (exData9.in_bps / 1000000 > 1 ∨
        exData9.out_bps / 1000000 > 1))) ∧
    exData9.threshold_exceeded ≠ some false := by
  have h : (bandwidthPerformPoll 1 1 "m" "t" (some ⟨0, 0, 0⟩)
      (some ⟨2000000, 0, 5⟩)).1 = some exData9 := by
    simp only [bandwidthPerformPoll, exData9]
    norm_num
  exact ⟨h, bandwidth_threshold_fields 1 1 "m" "t" _ _ exData9 h⟩

end LatencyMon
